import Mathlib

/-!
Verification of the ubershader material-variant cache and parameter-binding
layer (`libs/gltfio/src/UbershaderLoader.cpp`).

The embedding translates the source file's data model and operations into
executable Lean definitions:

* `MaterialKey`, `UvMap` — the cache-key value types. Their C++ declarations
  live in `gltfio/MaterialProvider.h`, which is not part of the file under
  verification, so the fields are taken from the specification (§3) together
  with the accesses the source file performs.
* `shaderFromKey`, `createMaterial` — shader synthesis and the builder-call
  sequence (lines 90–213 of the source).
* `constrainMaterial` — the normalization step; its definition is likewise
  outside the file, modelled from the specification (§4.1).
* `getOrCreateMaterial`, `createMaterialInstance`, `getMaterialsCount`,
  `destroyMaterials` — the cache state machine (lines 74–88 and 215–247).
  The state carries an instrumentation counter `compileCount` counting the
  synthesize+compile events, and `nextId` supplies fresh material handles
  (standing in for the distinct `Material*` pointers the engine returns).
  The external shader backend's success/failure is an oracle
  `compileOk : MaterialKey → Bool`; a compile failure propagates out of the
  call (the source inserts into the cache only after `createMaterial`
  returns), and the partial `at()` access of `getUvIndex` is made total with
  `Option`, `none` standing for the `std::out_of_range` throw.
-/

namespace Gltfio

/-- Alpha mode of a material, `gltfio::AlphaMode` (OPAQUE, MASK, BLEND). -/
inductive AlphaMode
  | OPAQUE
  | MASK
  | BLEND
deriving DecidableEq, Repr

/-- Modelled from the spec: `gltfio::MaterialKey` is declared in
`gltfio/MaterialProvider.h`, which is not part of the source file under
verification. Fields follow spec §3 and the accesses performed by
`UbershaderLoader.cpp` (the five `has*Texture` flags, the five `*UV`
source-set indices, `alphaMode`, `alphaMaskThreshold`, `doubleSided`,
`unlit`, plus the scalar factors of §3). `float` scalars are embedded as
`Rat`: they are only stored and compared, never computed with. -/
structure MaterialKey where
  doubleSided : Bool
  unlit : Bool
  hasBaseColorTexture : Bool
  hasMetallicRoughnessTexture : Bool
  hasNormalTexture : Bool
  hasOcclusionTexture : Bool
  hasEmissiveTexture : Bool
  alphaMode : AlphaMode
  alphaMaskThreshold : Rat
  baseColorUV : Nat
  metallicRoughnessUV : Nat
  emissiveUV : Nat
  aoUV : Nat
  normalUV : Nat
  baseColorFactor : Rat × Rat × Rat × Rat
  metallicFactor : Rat
  roughnessFactor : Rat
  normalScale : Rat
  aoStrength : Rat
  emissiveFactor : Rat × Rat × Rat
deriving DecidableEq, Repr

/-- `gltfio::UvMap`: a fixed-size-8 array of UV-slot entries (each entry is
0 = unused, 1 = UV0, 2 = UV1). Embedded as a list of naturals; the length-8
constraint is carried as a hypothesis where it matters, so that the
bounds-checked `at()` access can be modelled faithfully. -/
abbrev UvMap := List Nat

/-- The `getUvIndex` lambda of `UbershaderLoader::createMaterialInstance`
(source lines 220–222):
`hasTexture ? int(uvmap->at(srcIndex)) - 1 : -1`.
`uvmap->at` is bounds checked and throws `std::out_of_range` when
`srcIndex` is past the end; the throw is embedded as `none`. -/
def getUvIndex (uvmap : UvMap) (srcIndex : Nat) (hasTexture : Bool) : Option Int :=
  if hasTexture then (uvmap.get? srcIndex).map (fun v => (v : Int) - 1)
  else some (-1)

/-- `shaderFromKey` (source lines 90–143): the body of the ubershader. The
raw string of the source, transcribed byte for byte (braces written with
escapes). Note the `config` argument is never read. -/
def shaderFromKey (_config : MaterialKey) : String :=
  "\n        void material(inout MaterialInputs material) \x7b\n            float2 uvs[2] = \x7b getUV0(), getUV1() \x7d;\n            #if !defined(SHADING_MODEL_UNLIT)\n                if (materialParams.normalIndex > -1) \x7b\n                    float2 uv = uvs[materialParams.normalIndex];\n                    uv = (vec3(uv, 1.0) * materialParams.normalUvMatrix).xy;\n                    material.normal = texture(materialParams_normalMap, uv).xyz * 2.0 - 1.0;\n                    material.normal.y = -material.normal.y;\n                    material.normal.xy *= materialParams.normalScale;\n                \x7d\n            #endif\n            prepareMaterial(material);\n            material.baseColor = materialParams.baseColorFactor;\n            if (materialParams.baseColorIndex > -1) \x7b\n                float2 uv = uvs[materialParams.baseColorIndex];\n                uv = (vec3(uv, 1.0) * materialParams.baseColorUvMatrix).xy;\n                material.baseColor *= texture(materialParams_baseColorMap, uv);\n            \x7d\n\n            if (materialParams.blendEnabled) \x7b\n                material.baseColor.rgb *= material.baseColor.a;\n            \x7d\n\n            material.baseColor *= getColor();\n\n            #if !defined(SHADING_MODEL_UNLIT)\n                material.roughness = materialParams.roughnessFactor;\n                material.metallic = materialParams.metallicFactor;\n                material.emissive.rgb = materialParams.emissiveFactor.rgb;\n                material.emissive.a = 3.0;\n                if (materialParams.metallicRoughnessIndex > -1) \x7b\n                    float2 uv = uvs[materialParams.metallicRoughnessIndex];\n                    uv = (vec3(uv, 1.0) * materialParams.metallicRoughnessUvMatrix).xy;\n                    vec4 roughness = texture(materialParams_metallicRoughnessMap, uv);\n                    material.roughness *= roughness.g;\n                    material.metallic *= roughness.b;\n                \x7d\n                if (materialParams.aoIndex > -1) \x7b\n                    float2 uv = uvs[materialParams.aoIndex];\n                    uv = (vec3(uv, 1.0) * materialParams.occlusionUvMatrix).xy;\n                    material.ambientOcclusion = texture(materialParams_occlusionMap, uv).r *\n                            materialParams.aoStrength;\n                \x7d\n                if (materialParams.emissiveIndex > -1) \x7b\n                    float2 uv = uvs[materialParams.emissiveIndex];\n                    uv = (vec3(uv, 1.0) * materialParams.emissiveUvMatrix).xy;\n                    material.emissive.rgb *= texture(materialParams_emissiveMap, uv).rgb;\n                \x7d\n            #endif\n        \x7d\n    "

/-- Parameter declaration types: `MaterialBuilder::UniformType` values used by
the source, plus `SamplerType::SAMPLER_2D` flattened into the same enum. -/
inductive ParamType
  | INT
  | FLOAT
  | FLOAT3
  | FLOAT4
  | MAT3
  | BOOL
  | SAMPLER_2D
deriving DecidableEq, Repr

/-- `filament::VertexAttribute` values required by `createMaterial`. -/
inductive VertexAttribute
  | UV0
  | UV1
  | COLOR
deriving DecidableEq, Repr

/-- `filamat::MaterialBuilder::BlendingMode` values used by the source. -/
inductive BlendingMode
  | OPAQUE
  | MASKED
  | TRANSPARENT
deriving DecidableEq, Repr

/-- `Shading` model selected by `createMaterial`. -/
inductive Shading
  | LIT
  | UNLIT
deriving DecidableEq, Repr

/-- The ordered parameter declaration list written by `createMaterial`
(source lines 164–194), in source order. -/
def materialParamDecls : List (String × ParamType) :=
  [("baseColorIndex", ParamType.INT),
   ("baseColorFactor", ParamType.FLOAT4),
   ("baseColorMap", ParamType.SAMPLER_2D),
   ("baseColorUvMatrix", ParamType.MAT3),
   ("blendEnabled", ParamType.BOOL),
   ("metallicRoughnessIndex", ParamType.INT),
   ("metallicFactor", ParamType.FLOAT),
   ("roughnessFactor", ParamType.FLOAT),
   ("metallicRoughnessMap", ParamType.SAMPLER_2D),
   ("metallicRoughnessUvMatrix", ParamType.MAT3),
   ("normalIndex", ParamType.INT),
   ("normalScale", ParamType.FLOAT),
   ("normalMap", ParamType.SAMPLER_2D),
   ("normalUvMatrix", ParamType.MAT3),
   ("aoIndex", ParamType.INT),
   ("aoStrength", ParamType.FLOAT),
   ("occlusionMap", ParamType.SAMPLER_2D),
   ("occlusionUvMatrix", ParamType.MAT3),
   ("emissiveIndex", ParamType.INT),
   ("emissiveFactor", ParamType.FLOAT3),
   ("emissiveMap", ParamType.SAMPLER_2D),
   ("emissiveUvMatrix", ParamType.MAT3)]

/-- The builder state accumulated by the `MaterialBuilder` call chain of
`createMaterial` before `build()` hands it to the external compiler.
`maskThreshold` and `depthWrite` are `Option`s because the source sets them
only on some paths (MASK resp. BLEND); `none` means the builder default. -/
structure BuilderSettings where
  name : String
  flipUV : Bool
  materialSource : String
  doubleSided : Bool
  requiredAttributes : List VertexAttribute
  params : List (String × ParamType)
  blending : BlendingMode
  maskThreshold : Option Rat
  depthWrite : Option Bool
  shading : Shading
deriving DecidableEq, Repr

/-- `createMaterial` (source lines 145–213), up to the external `build()`
call: the settings handed to the shader backend. The `numTextures` local of
lines 156–159 is computed from the uvmap but never used by the rest of the
function, so it does not appear in the settings; the `uvmap` argument is
kept to mirror the source signature. -/
def createMaterial (config : MaterialKey) (_uvmap : UvMap) (name : String) :
    BuilderSettings :=
  { name := name
    flipUV := false
    materialSource := shaderFromKey config
    doubleSided := config.doubleSided
    requiredAttributes := [VertexAttribute.UV0, VertexAttribute.UV1, VertexAttribute.COLOR]
    params := materialParamDecls
    blending :=
      match config.alphaMode with
      | AlphaMode.OPAQUE => BlendingMode.OPAQUE
      | AlphaMode.MASK => BlendingMode.MASKED
      | AlphaMode.BLEND => BlendingMode.TRANSPARENT
    maskThreshold :=
      match config.alphaMode with
      | AlphaMode.MASK => some config.alphaMaskThreshold
      | _ => none
    depthWrite :=
      match config.alphaMode with
      | AlphaMode.BLEND => some true
      | _ => none
    shading := if config.unlit then Shading.UNLIT else Shading.LIT }

/-- Whether `uvmap[i]` names one of the two shader-visible UV slots: the
entry exists and is 1 (UV0) or 2 (UV1). -/
def uvSlotAssigned (uvmap : UvMap) (i : Nat) : Bool :=
  match uvmap.get? i with
  | some v => 1 ≤ v && v ≤ 2
  | none => false

/-- Modelled from the spec: `gltfio::details::constrainMaterial` is only
called (line 217) by the source file; its definition lives elsewhere in the
repository. Per spec §4.1: for each of the 5 channels, if the channel's
texture is enabled, look up `uvmap[channelUV]`; if the reference has no
shader-visible slot (entry 0, out of range, or past the 2-slot budget) the
channel is disabled; no channel is ever enabled. Both arguments are passed
by pointer and mutated in place in C++; the pair returned here is the
post-call value of `(*config, *uvmap)`. -/
def constrainMaterial (config : MaterialKey) (uvmap : UvMap) : MaterialKey × UvMap :=
  ({ config with
      hasBaseColorTexture :=
        config.hasBaseColorTexture && uvSlotAssigned uvmap config.baseColorUV
      hasMetallicRoughnessTexture :=
        config.hasMetallicRoughnessTexture && uvSlotAssigned uvmap config.metallicRoughnessUV
      hasNormalTexture :=
        config.hasNormalTexture && uvSlotAssigned uvmap config.normalUV
      hasOcclusionTexture :=
        config.hasOcclusionTexture && uvSlotAssigned uvmap config.aoUV
      hasEmissiveTexture :=
        config.hasEmissiveTexture && uvSlotAssigned uvmap config.emissiveUV },
   uvmap)

/-- A 3×3 matrix of floats (`filament::math::mat3f`), embedded as rows. -/
abbrev Mat3 := List (List Rat)

/-- `mat3f identity;` — the default-constructed `mat3f` is the identity. -/
def identityMat3 : Mat3 := [[1, 0, 0], [0, 1, 0], [0, 0, 1]]

/-- A value written by `MaterialInstance::setParameter` in the source. -/
inductive ParamValue
  | intVal (v : Int)
  | matVal (m : Mat3)
  | boolVal (b : Bool)
deriving DecidableEq, Repr

/-- The `setParameter` sequence of `createMaterialInstance` (source lines
232–246), in source order: the five channel UV indices via `getUvIndex`,
the five UV matrices (all `identity`), and `blendEnabled`. The first
out-of-range `at()` aborts the sequence (`none`). -/
def bindInstanceParams (config : MaterialKey) (uvmap : UvMap) :
    Option (List (String × ParamValue)) :=
  match getUvIndex uvmap config.baseColorUV config.hasBaseColorTexture,
        getUvIndex uvmap config.normalUV config.hasNormalTexture,
        getUvIndex uvmap config.metallicRoughnessUV config.hasMetallicRoughnessTexture,
        getUvIndex uvmap config.aoUV config.hasOcclusionTexture,
        getUvIndex uvmap config.emissiveUV config.hasEmissiveTexture with
  | some bc, some nrm, some mr, some ao, some em =>
      some [("baseColorIndex", ParamValue.intVal bc),
            ("normalIndex", ParamValue.intVal nrm),
            ("metallicRoughnessIndex", ParamValue.intVal mr),
            ("aoIndex", ParamValue.intVal ao),
            ("emissiveIndex", ParamValue.intVal em),
            ("baseColorUvMatrix", ParamValue.matVal identityMat3),
            ("metallicRoughnessUvMatrix", ParamValue.matVal identityMat3),
            ("normalUvMatrix", ParamValue.matVal identityMat3),
            ("occlusionUvMatrix", ParamValue.matVal identityMat3),
            ("emissiveUvMatrix", ParamValue.matVal identityMat3),
            ("blendEnabled", ParamValue.boolVal (decide (config.alphaMode = AlphaMode.BLEND)))]
  | _, _, _, _, _ => none

/-- The loader's cache state: `mCache` (the robin_map, as an association
list over structural key equality), `mMaterials` (the introspection
registry, a vector). `nextId` supplies the fresh handle the engine would
return for a newly compiled `Material*`; `compileCount` counts the
synthesize+compile events (calls reaching `createMaterial`). -/
structure LoaderState where
  mCache : List (MaterialKey × Nat)
  mMaterials : List Nat
  nextId : Nat
  compileCount : Nat
deriving DecidableEq, Repr

/-- The loader state right after construction: both containers empty. -/
def emptyState : LoaderState :=
  { mCache := [], mMaterials := [], nextId := 0, compileCount := 0 }

/-- `mCache.find(key)`: association-list lookup under structural equality
(the robin_map compares keys with `==`). -/
def findInCache : List (MaterialKey × Nat) → MaterialKey → Option Nat
  | [], _ => none
  | (k, m) :: rest, key => if k = key then some m else findInCache rest key

/-- `UbershaderLoader::getMaterialsCount` (source lines 74–76):
`return mMaterials.size();`. -/
def getMaterialsCount (st : LoaderState) : Nat :=
  st.mMaterials.length

/-- `UbershaderLoader::destroyMaterials` (source lines 82–88): destroys each
cached material through the engine (external), then clears both the
registry and the map. -/
def destroyMaterials (st : LoaderState) : LoaderState :=
  { st with mCache := [], mMaterials := [] }

/-- The cache-lookup-or-compile step of `createMaterialInstance` (source
lines 218, 224–230): a hit returns the cached material and leaves the state
alone; a miss compiles (`createMaterial`, counted), inserts into the map
and pushes onto the registry. `compileOk` is the external backend's
success oracle; on failure `none` — the failure propagates out of the
call before `emplace`/`push_back` run. -/
def getOrCreateMaterial (compileOk : MaterialKey → Bool) (st : LoaderState)
    (key : MaterialKey) : Option (LoaderState × Nat) :=
  match findInCache st.mCache key with
  | some material => some (st, material)
  | none =>
      if compileOk key then
        some ({ mCache := (key, st.nextId) :: st.mCache,
                mMaterials := st.mMaterials ++ [st.nextId],
                nextId := st.nextId + 1,
                compileCount := st.compileCount + 1 }, st.nextId)
      else none

/-- How a `createMaterialInstance` call can fail: the backend rejects the
synthesized material (compile failure), or an out-of-range `at()` in
`getUvIndex` throws. -/
inductive CreateError
  | compileFailure
  | outOfRange
deriving DecidableEq, Repr

/-- `UbershaderLoader::createMaterialInstance` (source lines 215–247):
normalize `(config, uvmap)` in place, look up or compile+insert, then bind
the instance parameters. Returns the state as left by the call together
with the material handle and the written parameters, or the error that
escaped. -/
def createMaterialInstance (compileOk : MaterialKey → Bool) (st : LoaderState)
    (config : MaterialKey) (uvmap : UvMap) :
    LoaderState × Except CreateError (Nat × List (String × ParamValue)) :=
  let n := constrainMaterial config uvmap
  match getOrCreateMaterial compileOk st n.1 with
  | none => (st, Except.error CreateError.compileFailure)
  | some (st', material) =>
      match bindInstanceParams n.1 n.2 with
      | some ps => (st', Except.ok (material, ps))
      | none => (st', Except.error CreateError.outOfRange)

end Gltfio

namespace Gltfio

theorem constrain_uvmap_eq (k : MaterialKey) (u : UvMap) :
    (constrainMaterial k u).2 = u := rfl

/-- C5: the normalization step is idempotent and never re-enables a disabled channel. -/
theorem c5_constrain_idempotent (k : MaterialKey) (u : UvMap) :
    constrainMaterial (constrainMaterial k u).1 (constrainMaterial k u).2 =
      constrainMaterial k u ∧
    ((k.hasBaseColorTexture = false → (constrainMaterial k u).1.hasBaseColorTexture = false) ∧
     (k.hasMetallicRoughnessTexture = false →
        (constrainMaterial k u).1.hasMetallicRoughnessTexture = false) ∧
     (k.hasNormalTexture = false → (constrainMaterial k u).1.hasNormalTexture = false) ∧
     (k.hasOcclusionTexture = false → (constrainMaterial k u).1.hasOcclusionTexture = false) ∧
     (k.hasEmissiveTexture = false → (constrainMaterial k u).1.hasEmissiveTexture = false)) := by
  constructor
  · simp [constrainMaterial, Bool.and_assoc]
  · refine ⟨?_, ?_, ?_, ?_, ?_⟩ <;> intro h <;> simp [constrainMaterial, h]

end Gltfio

namespace Gltfio

/-- C7: alpha-mode mapping of material synthesis. -/
theorem c7_alpha_mode_mapping (k : MaterialKey) (u : UvMap) (name : String) :
    (k.alphaMode = AlphaMode.OPAQUE →
        (createMaterial k u name).blending = BlendingMode.OPAQUE ∧
        (createMaterial k u name).maskThreshold = none ∧
        (createMaterial k u name).depthWrite = none) ∧
    (k.alphaMode = AlphaMode.MASK →
        (createMaterial k u name).blending = BlendingMode.MASKED ∧
        (createMaterial k u name).maskThreshold = some k.alphaMaskThreshold) ∧
    (k.alphaMode = AlphaMode.BLEND →
        (createMaterial k u name).blending = BlendingMode.TRANSPARENT ∧
        (createMaterial k u name).depthWrite = some true) := by
  refine ⟨?_, ?_, ?_⟩ <;> intro h <;> simp [createMaterial, h]

/-- C4: equal keys synthesize byte-identical shader source and identical
parameter declaration lists in the same order. -/
theorem c4_equal_keys_equal_synthesis (k1 k2 : MaterialKey) (u1 u2 : UvMap)
    (name : String) (hk : k1 = k2) :
    shaderFromKey k1 = shaderFromKey k2 ∧
    (createMaterial k1 u1 name).params = (createMaterial k2 u2 name).params := by
  subst hk
  exact ⟨rfl, rfl⟩

/-- C8: the shader source text is one constant string, independent of the
key; the key reaches the backend only through the builder settings, which
depend on the key only through doubleSided, alphaMode (blending mode, mask
threshold, depth write) and unlit (shading model). -/
theorem c8_shader_source_constant (k1 k2 : MaterialKey) :
    shaderFromKey k1 = shaderFromKey k2 ∧
    (∀ (u1 u2 : UvMap) (name : String),
      k1.doubleSided = k2.doubleSided → k1.alphaMode = k2.alphaMode →
      k1.alphaMaskThreshold = k2.alphaMaskThreshold → k1.unlit = k2.unlit →
      createMaterial k1 u1 name = createMaterial k2 u2 name) := by
  refine ⟨rfl, ?_⟩
  intro u1 u2 name h1 h2 h3 h4
  simp [createMaterial, shaderFromKey, h1, h2, h3, h4]

end Gltfio

namespace Gltfio

theorem get?_eq_some_getD (l : List Nat) (i : Nat) (h : i < l.length) :
    l.get? i = some (l.getD i 0) := by
  rw [List.get?_eq_getElem?, List.getElem?_eq_getElem h, List.getD_eq_getElem?_getD,
    List.getElem?_eq_getElem h]
  rfl

theorem getUvIndex_isSome (u : UvMap) (i : Nat) (b : Bool)
    (h : b = true → i < u.length) : (getUvIndex u i b).isSome := by
  cases b with
  | false => simp [getUvIndex]
  | true =>
      rw [getUvIndex, if_pos rfl, get?_eq_some_getD u i (h rfl)]
      rfl

theorem bindInstanceParams_eq (k : MaterialKey) (u : UvMap)
    (h1 : (getUvIndex u k.baseColorUV k.hasBaseColorTexture).isSome)
    (h2 : (getUvIndex u k.normalUV k.hasNormalTexture).isSome)
    (h3 : (getUvIndex u k.metallicRoughnessUV k.hasMetallicRoughnessTexture).isSome)
    (h4 : (getUvIndex u k.aoUV k.hasOcclusionTexture).isSome)
    (h5 : (getUvIndex u k.emissiveUV k.hasEmissiveTexture).isSome) :
    bindInstanceParams k u =
      some [("baseColorIndex", ParamValue.intVal ((getUvIndex u k.baseColorUV k.hasBaseColorTexture).getD 0)),
            ("normalIndex", ParamValue.intVal ((getUvIndex u k.normalUV k.hasNormalTexture).getD 0)),
            ("metallicRoughnessIndex", ParamValue.intVal ((getUvIndex u k.metallicRoughnessUV k.hasMetallicRoughnessTexture).getD 0)),
            ("aoIndex", ParamValue.intVal ((getUvIndex u k.aoUV k.hasOcclusionTexture).getD 0)),
            ("emissiveIndex", ParamValue.intVal ((getUvIndex u k.emissiveUV k.hasEmissiveTexture).getD 0)),
            ("baseColorUvMatrix", ParamValue.matVal identityMat3),
            ("metallicRoughnessUvMatrix", ParamValue.matVal identityMat3),
            ("normalUvMatrix", ParamValue.matVal identityMat3),
            ("occlusionUvMatrix", ParamValue.matVal identityMat3),
            ("emissiveUvMatrix", ParamValue.matVal identityMat3),
            ("blendEnabled", ParamValue.boolVal (decide (k.alphaMode = AlphaMode.BLEND)))] := by
  obtain ⟨v1, hv1⟩ := Option.isSome_iff_exists.mp h1
  obtain ⟨v2, hv2⟩ := Option.isSome_iff_exists.mp h2
  obtain ⟨v3, hv3⟩ := Option.isSome_iff_exists.mp h3
  obtain ⟨v4, hv4⟩ := Option.isSome_iff_exists.mp h4
  obtain ⟨v5, hv5⟩ := Option.isSome_iff_exists.mp h5
  simp [bindInstanceParams, hv1, hv2, hv3, hv4, hv5]

end Gltfio

namespace Gltfio

theorem getUvIndex_eq (u : UvMap) (i : Nat) (b : Bool) (h : b = true → i < u.length) :
    getUvIndex u i b = some (if b then (u.getD i 0 : Int) - 1 else -1) := by
  cases b with
  | false => simp [getUvIndex]
  | true =>
      rw [getUvIndex, if_pos rfl, get?_eq_some_getD u i (h rfl)]
      rfl

/-- C3: values written on the bound instance. -/
theorem c3_instance_parameter_binding (k : MaterialKey) (u : UvMap)
    (hbc : k.hasBaseColorTexture = true → k.baseColorUV < u.length)
    (hn : k.hasNormalTexture = true → k.normalUV < u.length)
    (hmr : k.hasMetallicRoughnessTexture = true → k.metallicRoughnessUV < u.length)
    (hao : k.hasOcclusionTexture = true → k.aoUV < u.length)
    (hem : k.hasEmissiveTexture = true → k.emissiveUV < u.length) :
    ∃ ps, bindInstanceParams k u = some ps ∧
      List.lookup "baseColorIndex" ps = some (ParamValue.intVal
        (if k.hasBaseColorTexture then (u.getD k.baseColorUV 0 : Int) - 1 else -1)) ∧
      List.lookup "normalIndex" ps = some (ParamValue.intVal
        (if k.hasNormalTexture then (u.getD k.normalUV 0 : Int) - 1 else -1)) ∧
      List.lookup "metallicRoughnessIndex" ps = some (ParamValue.intVal
        (if k.hasMetallicRoughnessTexture then (u.getD k.metallicRoughnessUV 0 : Int) - 1 else -1)) ∧
      List.lookup "aoIndex" ps = some (ParamValue.intVal
        (if k.hasOcclusionTexture then (u.getD k.aoUV 0 : Int) - 1 else -1)) ∧
      List.lookup "emissiveIndex" ps = some (ParamValue.intVal
        (if k.hasEmissiveTexture then (u.getD k.emissiveUV 0 : Int) - 1 else -1)) ∧
      List.lookup "baseColorUvMatrix" ps = some (ParamValue.matVal identityMat3) ∧
      List.lookup "metallicRoughnessUvMatrix" ps = some (ParamValue.matVal identityMat3) ∧
      List.lookup "normalUvMatrix" ps = some (ParamValue.matVal identityMat3) ∧
      List.lookup "occlusionUvMatrix" ps = some (ParamValue.matVal identityMat3) ∧
      List.lookup "emissiveUvMatrix" ps = some (ParamValue.matVal identityMat3) ∧
      List.lookup "blendEnabled" ps = some (ParamValue.boolVal
        (decide (k.alphaMode = AlphaMode.BLEND))) := by
  have e1 := getUvIndex_eq u k.baseColorUV k.hasBaseColorTexture hbc
  have e2 := getUvIndex_eq u k.normalUV k.hasNormalTexture hn
  have e3 := getUvIndex_eq u k.metallicRoughnessUV k.hasMetallicRoughnessTexture hmr
  have e4 := getUvIndex_eq u k.aoUV k.hasOcclusionTexture hao
  have e5 := getUvIndex_eq u k.emissiveUV k.hasEmissiveTexture hem
  have hb : bindInstanceParams k u =
      some [("baseColorIndex", ParamValue.intVal
              (if k.hasBaseColorTexture then (u.getD k.baseColorUV 0 : Int) - 1 else -1)),
            ("normalIndex", ParamValue.intVal
              (if k.hasNormalTexture then (u.getD k.normalUV 0 : Int) - 1 else -1)),
            ("metallicRoughnessIndex", ParamValue.intVal
              (if k.hasMetallicRoughnessTexture then (u.getD k.metallicRoughnessUV 0 : Int) - 1 else -1)),
            ("aoIndex", ParamValue.intVal
              (if k.hasOcclusionTexture then (u.getD k.aoUV 0 : Int) - 1 else -1)),
            ("emissiveIndex", ParamValue.intVal
              (if k.hasEmissiveTexture then (u.getD k.emissiveUV 0 : Int) - 1 else -1)),
            ("baseColorUvMatrix", ParamValue.matVal identityMat3),
            ("metallicRoughnessUvMatrix", ParamValue.matVal identityMat3),
            ("normalUvMatrix", ParamValue.matVal identityMat3),
            ("occlusionUvMatrix", ParamValue.matVal identityMat3),
            ("emissiveUvMatrix", ParamValue.matVal identityMat3),
            ("blendEnabled", ParamValue.boolVal
              (decide (k.alphaMode = AlphaMode.BLEND)))] := by
    simp only [bindInstanceParams, e1, e2, e3, e4, e5]
  refine ⟨_, hb, ?_, ?_, ?_, ?_, ?_, ?_, ?_, ?_, ?_, ?_, ?_⟩ <;> rfl

end Gltfio

namespace Gltfio

/-- C9: exactly the 11 parameters are written, never the scalar factors. -/
theorem c9_exactly_eleven_parameters (k : MaterialKey) (u : UvMap)
    (ps : List (String × ParamValue)) (h : bindInstanceParams k u = some ps) :
    ps.map Prod.fst = ["baseColorIndex", "normalIndex", "metallicRoughnessIndex",
      "aoIndex", "emissiveIndex", "baseColorUvMatrix", "metallicRoughnessUvMatrix",
      "normalUvMatrix", "occlusionUvMatrix", "emissiveUvMatrix", "blendEnabled"] ∧
    ps.length = 11 ∧
    (∀ f ∈ ["baseColorFactor", "metallicFactor", "roughnessFactor", "normalScale",
        "aoStrength", "emissiveFactor"],
      (∀ name, f ∈ (createMaterial k u name).params.map Prod.fst) ∧
      f ∉ ps.map Prod.fst) ∧
    (∀ (a : Rat × Rat × Rat × Rat) (b c d e : Rat) (f : Rat × Rat × Rat),
      bindInstanceParams
          { k with
              baseColorFactor := a
              metallicFactor := b
              roughnessFactor := c
              normalScale := d
              aoStrength := e
              emissiveFactor := f } u = bindInstanceParams k u) := by
  simp only [bindInstanceParams] at h
  cases hv1 : getUvIndex u k.baseColorUV k.hasBaseColorTexture <;> rw [hv1] at h <;>
    cases hv2 : getUvIndex u k.normalUV k.hasNormalTexture <;> rw [hv2] at h <;>
    cases hv3 : getUvIndex u k.metallicRoughnessUV k.hasMetallicRoughnessTexture <;>
      rw [hv3] at h <;>
    cases hv4 : getUvIndex u k.aoUV k.hasOcclusionTexture <;> rw [hv4] at h <;>
    cases hv5 : getUvIndex u k.emissiveUV k.hasEmissiveTexture <;> rw [hv5] at h <;>
    simp only [Option.some.injEq, reduceCtorEq] at h
  subst h
  refine ⟨rfl, rfl, ?_, ?_⟩
  · intro f hf
    fin_cases hf <;>
      exact ⟨fun name => by simp [createMaterial, materialParamDecls], by simp⟩
  · intro a b c d e f
    rfl

end Gltfio

namespace Gltfio

/-- C10: with valid positions for enabled channels, binding does not throw;
a disabled channel never reads the uvmap. -/
theorem c10_no_throw_on_valid_input (k : MaterialKey) (u : UvMap)
    (hlen : u.length = 8)
    (hbc : k.hasBaseColorTexture = true → k.baseColorUV < 8)
    (hn : k.hasNormalTexture = true → k.normalUV < 8)
    (hmr : k.hasMetallicRoughnessTexture = true → k.metallicRoughnessUV < 8)
    (hao : k.hasOcclusionTexture = true → k.aoUV < 8)
    (hem : k.hasEmissiveTexture = true → k.emissiveUV < 8) :
    (bindInstanceParams k u).isSome ∧
    (∀ i : Nat, getUvIndex u i false = some (-1)) := by
  constructor
  · have e1 := getUvIndex_eq u k.baseColorUV k.hasBaseColorTexture
      (fun h => by rw [hlen]; exact hbc h)
    have e2 := getUvIndex_eq u k.normalUV k.hasNormalTexture
      (fun h => by rw [hlen]; exact hn h)
    have e3 := getUvIndex_eq u k.metallicRoughnessUV k.hasMetallicRoughnessTexture
      (fun h => by rw [hlen]; exact hmr h)
    have e4 := getUvIndex_eq u k.aoUV k.hasOcclusionTexture
      (fun h => by rw [hlen]; exact hao h)
    have e5 := getUvIndex_eq u k.emissiveUV k.hasEmissiveTexture
      (fun h => by rw [hlen]; exact hem h)
    simp [bindInstanceParams, e1, e2, e3, e4, e5]
  · intro i
    simp [getUvIndex]

end Gltfio

namespace Gltfio

theorem findInCache_cons_self (cache : List (MaterialKey × Nat)) (key : MaterialKey)
    (m : Nat) : findInCache ((key, m) :: cache) key = some m := by
  simp [findInCache]

theorem getUvIndex_constrained_isSome (u : UvMap) (i : Nat) (b : Bool) :
    (getUvIndex u i (b && uvSlotAssigned u i)).isSome := by
  cases b with
  | false => simp [getUvIndex]
  | true =>
      cases hs : uvSlotAssigned u i with
      | false => simp [getUvIndex]
      | true =>
          unfold uvSlotAssigned at hs
          cases hg : u.get? i with
          | none => rw [hg] at hs; simp at hs
          | some v =>
              rw [List.get?_eq_getElem?] at hg
              simp [getUvIndex, hg]

theorem bindInstanceParams_isSome (k : MaterialKey) (u : UvMap)
    (h1 : (getUvIndex u k.baseColorUV k.hasBaseColorTexture).isSome)
    (h2 : (getUvIndex u k.normalUV k.hasNormalTexture).isSome)
    (h3 : (getUvIndex u k.metallicRoughnessUV k.hasMetallicRoughnessTexture).isSome)
    (h4 : (getUvIndex u k.aoUV k.hasOcclusionTexture).isSome)
    (h5 : (getUvIndex u k.emissiveUV k.hasEmissiveTexture).isSome) :
    (bindInstanceParams k u).isSome := by
  obtain ⟨v1, hv1⟩ := Option.isSome_iff_exists.mp h1
  obtain ⟨v2, hv2⟩ := Option.isSome_iff_exists.mp h2
  obtain ⟨v3, hv3⟩ := Option.isSome_iff_exists.mp h3
  obtain ⟨v4, hv4⟩ := Option.isSome_iff_exists.mp h4
  obtain ⟨v5, hv5⟩ := Option.isSome_iff_exists.mp h5
  simp [bindInstanceParams, hv1, hv2, hv3, hv4, hv5]

/-- Normalized inputs always bind: every channel `constrainMaterial` leaves
enabled has a shader-visible slot, so the `at()` access is in range. -/
theorem bindInstanceParams_constrained_isSome (k : MaterialKey) (u : UvMap) :
    (bindInstanceParams (constrainMaterial k u).1 (constrainMaterial k u).2).isSome :=
  bindInstanceParams_isSome _ _
    (getUvIndex_constrained_isSome u k.baseColorUV k.hasBaseColorTexture)
    (getUvIndex_constrained_isSome u k.normalUV k.hasNormalTexture)
    (getUvIndex_constrained_isSome u k.metallicRoughnessUV k.hasMetallicRoughnessTexture)
    (getUvIndex_constrained_isSome u k.aoUV k.hasOcclusionTexture)
    (getUvIndex_constrained_isSome u k.emissiveUV k.hasEmissiveTexture)

end Gltfio

namespace Gltfio

/-- After a successful call the normalized key is cached and mapped to the
returned material; a miss grew the registry and compile count by one, a hit
left the state untouched. -/
theorem create_success_cached (co : MaterialKey → Bool) (st : LoaderState)
    (k : MaterialKey) (u : UvMap) (st' : LoaderState) (m : Nat)
    (ps : List (String × ParamValue))
    (h : createMaterialInstance co st k u = (st', Except.ok (m, ps))) :
    findInCache st'.mCache (constrainMaterial k u).1 = some m ∧
    (findInCache st.mCache (constrainMaterial k u).1 = none →
        st'.mMaterials.length = st.mMaterials.length + 1 ∧
        st'.compileCount = st.compileCount + 1) ∧
    (∀ m0, findInCache st.mCache (constrainMaterial k u).1 = some m0 →
        st' = st ∧ m = m0) := by
  simp only [createMaterialInstance, getOrCreateMaterial] at h
  cases hfind : findInCache st.mCache (constrainMaterial k u).1 with
  | some m0 =>
      rw [hfind] at h
      simp only at h
      cases hbind : bindInstanceParams (constrainMaterial k u).1 (constrainMaterial k u).2 with
      | none => rw [hbind] at h; simp at h
      | some ps0 =>
          rw [hbind] at h
          simp only [Prod.mk.injEq, Except.ok.injEq] at h
          obtain ⟨hst, hm, hps⟩ := h
          subst hst hm
          refine ⟨hfind, fun hc => ?_, fun m1 h1 => ⟨rfl, Option.some.inj h1⟩⟩
          cases hc
  | none =>
      rw [hfind] at h
      simp only at h
      cases hco : co (constrainMaterial k u).1 with
      | false => rw [hco] at h; simp at h
      | true =>
          rw [hco] at h
          simp only [if_true] at h
          cases hbind : bindInstanceParams (constrainMaterial k u).1 (constrainMaterial k u).2 with
          | none => rw [hbind] at h; simp at h
          | some ps0 =>
              rw [hbind] at h
              simp only [Prod.mk.injEq, Except.ok.injEq] at h
              obtain ⟨hst, hm, hps⟩ := h
              subst hm
              rw [← hst]
              refine ⟨findInCache_cons_self _ _ _, fun _ => ⟨?_, rfl⟩,
                fun m1 h1 => nomatch h1⟩
              simp

end Gltfio

namespace Gltfio

/-- C1: equal normalized keys share one cached material; the count grows by
one on a first distinct-key call and the repeat call leaves the state
(count, cache, compile count) untouched and returns the same material. -/
theorem c1_cache_determinism (co : MaterialKey → Bool) (st0 : LoaderState)
    (k1 k2 : MaterialKey) (u1 u2 : UvMap)
    (hkey : (constrainMaterial k1 u1).1 = (constrainMaterial k2 u2).1)
    (st1 : LoaderState) (m1 : Nat) (ps1 : List (String × ParamValue))
    (h1 : createMaterialInstance co st0 k1 u1 = (st1, Except.ok (m1, ps1))) :
    (∃ ps2, createMaterialInstance co st1 k2 u2 = (st1, Except.ok (m1, ps2))) ∧
    (findInCache st0.mCache (constrainMaterial k1 u1).1 = none →
        getMaterialsCount st1 = getMaterialsCount st0 + 1 ∧
        st1.compileCount = st0.compileCount + 1) ∧
    (∀ m0, findInCache st0.mCache (constrainMaterial k1 u1).1 = some m0 →
        st1 = st0) := by
  obtain ⟨hc, hmiss, hhit⟩ := create_success_cached co st0 k1 u1 st1 m1 ps1 h1
  refine ⟨?_, fun hn => hmiss hn, fun m0 h0 => (hhit m0 h0).1⟩
  have hc2 : findInCache st1.mCache (constrainMaterial k2 u2).1 = some m1 := hkey ▸ hc
  obtain ⟨ps2, hps2⟩ := Option.isSome_iff_exists.mp
    (bindInstanceParams_constrained_isSome k2 u2)
  refine ⟨ps2, ?_⟩
  simp only [createMaterialInstance, getOrCreateMaterial, hc2, hps2]

end Gltfio

namespace Gltfio

/-- C2: a compile failure on a cache miss propagates and leaves the state
(cache map and registry) exactly as it was. -/
theorem c2_compile_failure_no_insert (co : MaterialKey → Bool) (st : LoaderState)
    (k : MaterialKey) (u : UvMap)
    (hmiss : findInCache st.mCache (constrainMaterial k u).1 = none)
    (hfail : co (constrainMaterial k u).1 = false) :
    createMaterialInstance co st k u = (st, Except.error CreateError.compileFailure) := by
  simp [createMaterialInstance, getOrCreateMaterial, hmiss, hfail]

/-- C6: after destroyMaterials the count is zero and both containers are
empty; a subsequent call with a previously-cached key compiles exactly once
more and succeeds. -/
theorem c6_destroy_then_recompile (co : MaterialKey → Bool) (st : LoaderState)
    (k : MaterialKey) (u : UvMap) (m0 : Nat)
    (_hprev : findInCache st.mCache (constrainMaterial k u).1 = some m0)
    (hco : co (constrainMaterial k u).1 = true) :
    getMaterialsCount (destroyMaterials st) = 0 ∧
    (destroyMaterials st).mCache = [] ∧
    (destroyMaterials st).mMaterials = [] ∧
    (∃ st' m ps,
      createMaterialInstance co (destroyMaterials st) k u = (st', Except.ok (m, ps)) ∧
      st'.compileCount = st.compileCount + 1 ∧
      getMaterialsCount st' = 1) := by
  refine ⟨rfl, rfl, rfl, ?_⟩
  obtain ⟨ps, hps⟩ := Option.isSome_iff_exists.mp
    (bindInstanceParams_constrained_isSome k u)
  refine ⟨{ mCache := [((constrainMaterial k u).1, st.nextId)],
            mMaterials := [st.nextId],
            nextId := st.nextId + 1,
            compileCount := st.compileCount + 1 }, st.nextId, ps, ?_, rfl, rfl⟩
  simp [createMaterialInstance, getOrCreateMaterial, destroyMaterials, findInCache,
    hco, hps]

end Gltfio

namespace Gltfio

/-- A concrete key: base-color texture on UV set 0, all other channels off. -/
def sampleKey : MaterialKey :=
  { doubleSided := false, unlit := false,
    hasBaseColorTexture := true, hasMetallicRoughnessTexture := false,
    hasNormalTexture := false, hasOcclusionTexture := false,
    hasEmissiveTexture := false,
    alphaMode := AlphaMode.OPAQUE, alphaMaskThreshold := 0,
    baseColorUV := 0, metallicRoughnessUV := 0, emissiveUV := 0,
    aoUV := 0, normalUV := 0,
    baseColorFactor := (1, 1, 1, 1), metallicFactor := 1, roughnessFactor := 1,
    normalScale := 1, aoStrength := 1, emissiveFactor := (0, 0, 0) }

/-- A concrete uvmap: UV set 0 feeds shader slot UV0, the rest unused. -/
def sampleUvMap : UvMap := [1, 0, 0, 0, 0, 0, 0, 0]

def maskKey : MaterialKey := { sampleKey with alphaMode := AlphaMode.MASK }

def blendKey : MaterialKey := { sampleKey with alphaMode := AlphaMode.BLEND }

def factorKey : MaterialKey := { sampleKey with baseColorFactor := (0, 0, 0, 0) }

def sampleKey3 : MaterialKey := { sampleKey with baseColorUV := 3 }

def sampleUvMap3 : UvMap := [0, 0, 0, 2, 0, 0, 0, 0]

def alwaysCompiles : MaterialKey → Bool := fun _ => true

def neverCompiles : MaterialKey → Bool := fun _ => false

/-- The parameters bound for `sampleKey`/`sampleUvMap`. -/
def boundParams : List (String × ParamValue) :=
  [("baseColorIndex", ParamValue.intVal 0),
   ("normalIndex", ParamValue.intVal (-1)),
   ("metallicRoughnessIndex", ParamValue.intVal (-1)),
   ("aoIndex", ParamValue.intVal (-1)),
   ("emissiveIndex", ParamValue.intVal (-1)),
   ("baseColorUvMatrix", ParamValue.matVal identityMat3),
   ("metallicRoughnessUvMatrix", ParamValue.matVal identityMat3),
   ("normalUvMatrix", ParamValue.matVal identityMat3),
   ("occlusionUvMatrix", ParamValue.matVal identityMat3),
   ("emissiveUvMatrix", ParamValue.matVal identityMat3),
   ("blendEnabled", ParamValue.boolVal false)]

/-- The loader state after one successful `sampleKey` call from empty. -/
def cachedState : LoaderState :=
  { mCache := [(sampleKey, 0)], mMaterials := [0], nextId := 1, compileCount := 1 }

theorem firstCall_eq :
    createMaterialInstance alwaysCompiles emptyState sampleKey sampleUvMap =
      (cachedState, Except.ok (0, boundParams)) := rfl

/-- C1 witness at a concrete repeat call. -/
theorem c1_cache_determinism_witness :
    ∃ ps2, createMaterialInstance alwaysCompiles cachedState sampleKey sampleUvMap =
      (cachedState, Except.ok (0, ps2)) :=
  (c1_cache_determinism alwaysCompiles emptyState sampleKey sampleKey sampleUvMap
    sampleUvMap rfl cachedState 0 boundParams firstCall_eq).1

/-- C2 witness at a concrete failing compile. -/
theorem c2_compile_failure_witness :
    createMaterialInstance neverCompiles emptyState sampleKey sampleUvMap =
      (emptyState, Except.error CreateError.compileFailure) :=
  c2_compile_failure_no_insert neverCompiles emptyState sampleKey sampleUvMap rfl rfl

/-- C3 witness: baseColorUV = 3 with uvmap[3] = 2 binds index 1. -/
theorem c3_instance_parameter_binding_witness :
    ∃ ps, bindInstanceParams sampleKey3 sampleUvMap3 = some ps ∧
      List.lookup "baseColorIndex" ps = some (ParamValue.intVal 1) ∧
      List.lookup "normalIndex" ps = some (ParamValue.intVal (-1)) := by
  obtain ⟨ps, hps, hbc, hn, _⟩ := c3_instance_parameter_binding sampleKey3 sampleUvMap3
    (fun _ => by decide) (fun _ => by decide) (fun _ => by decide)
    (fun _ => by decide) (fun _ => by decide)
  refine ⟨ps, hps, ?_, ?_⟩
  · rw [hbc]; rfl
  · rw [hn]; rfl

/-- C4 witness. -/
theorem c4_equal_keys_equal_synthesis_witness :
    shaderFromKey sampleKey = shaderFromKey sampleKey ∧
    (createMaterial sampleKey sampleUvMap "mat").params =
      (createMaterial sampleKey sampleUvMap3 "mat").params :=
  c4_equal_keys_equal_synthesis sampleKey sampleKey sampleUvMap sampleUvMap3 "mat" rfl

/-- C5 witness. -/
theorem c5_constrain_idempotent_witness :
    constrainMaterial (constrainMaterial sampleKey sampleUvMap).1
        (constrainMaterial sampleKey sampleUvMap).2 =
      constrainMaterial sampleKey sampleUvMap ∧
    (constrainMaterial sampleKey sampleUvMap).1.hasNormalTexture = false := by
  obtain ⟨hi, hre⟩ := c5_constrain_idempotent sampleKey sampleUvMap
  exact ⟨hi, hre.2.2.1 rfl⟩

/-- C6 witness. -/
theorem c6_destroy_then_recompile_witness :
    getMaterialsCount (destroyMaterials cachedState) = 0 ∧
    (∃ st' m ps,
      createMaterialInstance alwaysCompiles (destroyMaterials cachedState)
          sampleKey sampleUvMap = (st', Except.ok (m, ps)) ∧
      st'.compileCount = cachedState.compileCount + 1) := by
  obtain ⟨h0, _, _, st', m, ps, hc, hcc, _⟩ :=
    c6_destroy_then_recompile alwaysCompiles cachedState sampleKey sampleUvMap 0 rfl rfl
  exact ⟨h0, st', m, ps, hc, hcc⟩

/-- C7 witness at each of the three alpha modes. -/
theorem c7_alpha_mode_mapping_witness :
    (createMaterial sampleKey sampleUvMap "mat").blending = BlendingMode.OPAQUE ∧
    (createMaterial maskKey sampleUvMap "mat").blending = BlendingMode.MASKED ∧
    (createMaterial maskKey sampleUvMap "mat").maskThreshold =
      some maskKey.alphaMaskThreshold ∧
    (createMaterial blendKey sampleUvMap "mat").blending = BlendingMode.TRANSPARENT ∧
    (createMaterial blendKey sampleUvMap "mat").depthWrite = some true := by
  refine ⟨((c7_alpha_mode_mapping sampleKey sampleUvMap "mat").1 rfl).1, ?_, ?_, ?_, ?_⟩
  · exact ((c7_alpha_mode_mapping maskKey sampleUvMap "mat").2.1 rfl).1
  · exact ((c7_alpha_mode_mapping maskKey sampleUvMap "mat").2.1 rfl).2
  · exact ((c7_alpha_mode_mapping blendKey sampleUvMap "mat").2.2 rfl).1
  · exact ((c7_alpha_mode_mapping blendKey sampleUvMap "mat").2.2 rfl).2

/-- C8 witness: different keys, same shader text; factor-only difference
yields identical builder settings. -/
theorem c8_shader_source_constant_witness :
    shaderFromKey sampleKey = shaderFromKey blendKey ∧
    createMaterial sampleKey sampleUvMap "mat" = createMaterial factorKey sampleUvMap3 "mat" :=
  ⟨(c8_shader_source_constant sampleKey blendKey).1,
   (c8_shader_source_constant sampleKey factorKey).2 sampleUvMap sampleUvMap3 "mat"
     rfl rfl rfl rfl⟩

/-- C9 witness. -/
theorem c9_exactly_eleven_parameters_witness :
    boundParams.map Prod.fst = ["baseColorIndex", "normalIndex",
      "metallicRoughnessIndex", "aoIndex", "emissiveIndex", "baseColorUvMatrix",
      "metallicRoughnessUvMatrix", "normalUvMatrix", "occlusionUvMatrix",
      "emissiveUvMatrix", "blendEnabled"] ∧
    boundParams.length = 11 := by
  obtain ⟨h1, h2, _⟩ :=
    c9_exactly_eleven_parameters sampleKey sampleUvMap boundParams rfl
  exact ⟨h1, h2⟩

/-- C10 witness. -/
theorem c10_no_throw_on_valid_input_witness :
    (bindInstanceParams sampleKey sampleUvMap).isSome ∧
    getUvIndex sampleUvMap 9 false = some (-1) := by
  obtain ⟨h1, h2⟩ := c10_no_throw_on_valid_input sampleKey sampleUvMap rfl
    (fun _ => by decide) (fun _ => by decide) (fun _ => by decide)
    (fun _ => by decide) (fun _ => by decide)
  exact ⟨h1, h2 9⟩

end Gltfio
